import Mathlib

/-!
Shallow embedding of the HoneyAgent backend (identity, routing, fingerprint
tools) and proofs of its specified properties.

Python strings are modelled as Lean `String`; Python `None`-able values as
`Option`; code that may raise is modelled as `Except String`; external
collaborators (JWKS, JWT decoding, FGA, Bedrock embeddings, S3 Vectors, the
local filesystem) are modelled as environment records of oracles, so that the
embedded functions are total exactly where the source catches all exceptions.
Python floats appearing in similarity arithmetic are modelled as `Rat`.
-/

/- ### Python string primitives (modelled on `List Char` for kernel reduction) -/

/-- Whitespace set of Python `str.split()` (ASCII part). -/
def pyIsSpace (c : Char) : Bool :=
  c = ' ' || c = '\t' || c = '\n' || c = '\x0d' || c = '\x0b' || c = '\x0c'

/-- Python `s.split()`: split on whitespace runs, dropping empty pieces. -/
def pySplit (s : String) : List String :=
  ((s.data.splitOnP pyIsSpace).filter (fun l => l ≠ [])).map (fun l => ⟨l⟩)

/-- Python `s.lower()` (ASCII behaviour). -/
def pyLower (s : String) : String := ⟨s.data.map Char.toLower⟩

/-- Replace every non-overlapping occurrence of `pat` in the list, scanning
left to right, as Python `str.replace` does for a non-empty pattern. The
`fuel` argument makes the recursion structural; each step consumes at least
one character, so `fuel = length` never runs out. -/
def replaceChars (pat rep : List Char) : Nat → List Char → List Char
  | 0, cs => cs
  | _ + 1, [] => []
  | fuel + 1, c :: cs =>
    if pat ≠ [] ∧ pat.isPrefixOf (c :: cs) then
      rep ++ replaceChars pat rep fuel ((c :: cs).drop pat.length)
    else
      c :: replaceChars pat rep fuel cs

/-- Python `s.replace(pat, rep)` for non-empty `pat`. -/
def pyReplace (s pat rep : String) : String :=
  ⟨replaceChars pat.data rep.data s.data.length s.data⟩

/-- Python `sep.join(parts)`. -/
def joinWith (sep : String) : List String → String
  | [] => ""
  | [x] => x
  | x :: y :: xs => x ++ sep ++ joinWith sep (y :: xs)

/-- Python `s[:n]` for a non-negative `n`. -/
def pyTake (s : String) (n : Nat) : String := ⟨s.data.take n⟩

/-- Python `l[-n:]` for a non-negative `n`: the last `n` elements, except that
`n = 0` yields the whole list. -/
def pySliceLast (l : List α) (n : Nat) : List α :=
  if n = 0 then l else l.drop (l.length - n)

/- ### Identity data model (`src/backend/core/identity.py`) -/

/-- The JWT claims consumed by the identity layer: `sub`, the namespaced
`agent_type` claim and the namespaced `trap_profile` claim
(namespace `https://honeyagent.io/`). A missing key is `none`. -/
structure Claims where
  sub : Option String := none
  agent_type : Option String := none
  trap_profile : Option String := none
  deriving DecidableEq, Repr

/-- Result of identity validation (dataclass `Identity`). -/
structure Identity where
  valid : Bool
  agent_id : Option String := none
  agent_type : Option String := none
  is_honeypot : Bool := false
  fga_allowed : Bool := false
  raw_claims : Claims := {}
  deriving DecidableEq, Repr

/-- One entry of the `identity_fallbacks` map of `config/fallbacks.yaml`;
a `none` field models a key absent from the YAML mapping. -/
structure FallbackCfg where
  valid : Option Bool := none
  agent_type : Option String := none
  is_honeypot : Option Bool := none
  fga_allowed : Option Bool := none
  deriving DecidableEq, Repr

/-- Modelled from the spec: `config/fallbacks.yaml` is not under `src/`.
The spec requires every token-verification failure to yield
`Identity(valid := false)`, and the unit tests
(`tests/unit/test_identity.py`) assert `valid = false` for the
`token_decode_failed` and `jwks_fetch_failed` entries and
`fga_allowed = true` for the `fga_timeout` entry. An unknown fallback type
yields the empty mapping, as `fallbacks.get(...).get(fallback_type, {})`
does. -/
def identity_fallbacks (fallback_type : String) : FallbackCfg :=
  if fallback_type = "token_decode_failed" then
    { valid := some false, fga_allowed := some false }
  else if fallback_type = "jwks_fetch_failed" then
    { valid := some false, fga_allowed := some false }
  else if fallback_type = "fga_timeout" then
    { valid := some false, fga_allowed := some true }
  else
    {}

/-- `get_identity_fallback`: build the fallback `Identity` from the
configuration entry, with the defaults of the `.get` calls of the source. -/
def get_identity_fallback (fallback_type : String) : Identity :=
  let fb := identity_fallbacks fallback_type
  { valid := fb.valid.getD false
    agent_id := none
    agent_type := fb.agent_type
    is_honeypot := fb.is_honeypot.getD false
    fga_allowed := fb.fga_allowed.getD false
    raw_claims := {} }

/-- Abstraction of the RSA public key that `get_signing_key` resolves from
the cached JWKS; only its identity matters to the control flow. -/
structure SigningKey where
  key_id : String
  deriving DecidableEq, Repr

/-- The exception classes distinguished by `validate_token`. -/
inductive JwtError where
  | expiredSignature
  | invalidToken
  | other (msg : String)
  deriving DecidableEq, Repr

/-- Environment of the token verifier: `get_signing_key` (which catches its
own exceptions and returns `None` on any JWKS or header failure) and
`jwt.decode` (which raises on expiry, bad signature, bad audience or issuer,
modelled as `Except`). -/
structure TokenEnv where
  get_signing_key : String → Option SigningKey
  jwtDecode : String → SigningKey → Except JwtError Claims

/-- `extract_identity`: build a valid `Identity` from verified claims.
`agent_id` is `claims.get("sub", "").replace("@clients", "")`, hence always a
string (never null); `agent_type` defaults to `"real"`. -/
def extract_identity (claims : Claims) : Identity :=
  let agent_type := claims.agent_type.getD "real"
  let agent_id := pyReplace (claims.sub.getD "") "@clients" ""
  { valid := true
    agent_id := some agent_id
    agent_type := some agent_type
    is_honeypot := agent_type = "honeypot"
    fga_allowed := true
    raw_claims := claims }

/-- The token-processing block of `validate_token` (lines 136-162): resolve
the signing key, decode, extract; every decode exception falls back. -/
def verify_bearer_token (env : TokenEnv) (token : String) : Identity :=
  match env.get_signing_key token with
  | none => get_identity_fallback "jwks_fetch_failed"
  | some signing_key =>
    match env.jwtDecode token signing_key with
    | Except.ok decoded => extract_identity decoded
    | Except.error _ => get_identity_fallback "token_decode_failed"

/-- `validate_token`: reject a missing or empty header, split the header on
whitespace, require exactly two parts with the first lowercasing to
`"bearer"`, then verify the second part as the token. -/
def validate_token (env : TokenEnv) (auth_header : Option String) : Identity :=
  match auth_header with
  | none => get_identity_fallback "token_decode_failed"
  | some h =>
    if h = "" then get_identity_fallback "token_decode_failed"
    else
      let parts := pySplit h
      if parts.length ≠ 2 ∨ (parts.head?.map pyLower) ≠ some "bearer" then
        get_identity_fallback "token_decode_failed"
      else
        verify_bearer_token env (parts.getD 1 "")

/- ### FGA permission checks (`src/backend/core/identity.py`, lines 194-305) -/

/-- The fields of the JSON body of a successful FGA check response; `allowed`
is `result.get("allowed", False)` when present. -/
structure FgaResponse where
  allowed : Option Bool := none
  deriving DecidableEq, Repr

/-- Environment of the FGA checker: the three environment variables (a set
variable may still be the empty, hence falsy, string), `get_fga_token` (which
catches its own exceptions and returns `None` on failure) and the remote
check call (HTTP post, `raise_for_status` and JSON decoding, modelled as
`Except`), keyed by the tuple `(agent_id, relation, object_id)`. -/
structure FgaEnv where
  store_id : Option String := none
  client_id : Option String := none
  client_secret : Option String := none
  get_fga_token : String → String → Option String
  checkRequest : String → String → String → Except String FgaResponse

/-- Python truthiness of `os.getenv`: unset (`None`) and the empty string are
both falsy. -/
def envTruthy (v : Option String) : Bool :=
  match v with
  | none => false
  | some s => s ≠ ""

/-- `check_fga`: fail open (`true`) when any of store id, client id, client
secret is falsy, when token acquisition yields no token, or when the remote
check raises; otherwise return `result.get("allowed", False)`. -/
def check_fga (env : FgaEnv) (agent_id relation object_id : String) : Bool :=
  if ¬ (envTruthy env.store_id ∧ envTruthy env.client_id ∧ envTruthy env.client_secret) then
    true
  else
    match env.get_fga_token (env.client_id.getD "") (env.client_secret.getD "") with
    | none => true
    | some _ =>
      match env.checkRequest agent_id relation object_id with
      | Except.error _ => true
      | Except.ok result => result.allowed.getD false

/-- `get_full_identity`: validate the token; when invalid return immediately,
otherwise run the FGA check for `can_communicate` on the swarm and overwrite
`fga_allowed` with its verdict. -/
def get_full_identity (tenv : TokenEnv) (fenv : FgaEnv)
    (auth_header : Option String) (swarm_id : String) : Identity :=
  let identity := validate_token tenv auth_header
  if identity.valid = false then identity
  else
    let fga_allowed :=
      check_fga fenv (identity.agent_id.getD "") "can_communicate" ("swarm:" ++ swarm_id)
    { identity with fga_allowed := fga_allowed }

/- ### Router (`src/backend/core/router.py`) -/

/-- One entry of the `rules` list of `config/routing.yaml`; a `none` field
models a key absent from the YAML mapping (`rule.get(...)`). -/
structure Rule where
  priority : Option Int := none
  condition : Option String := none
  route_to : Option String := none
  log_event : Option String := none
  deriving DecidableEq, Repr

/-- The routing configuration (`config/routing.yaml` as loaded by
`load_routing_rules`). -/
structure RoutingConfig where
  rules : List Rule := []
  default_route : Option String := none
  deriving DecidableEq, Repr

/-- The sort key of `route_request`: `r.get("priority", 999)`. -/
def rulePriority (r : Rule) : Int := r.priority.getD 999

/-- Python boolean literal rendering, `str(b)`. -/
def pyStr (b : Bool) : String := if b then "True" else "False"

/-- The textual substitution of `evaluate_condition`: replace the
`not identity.X` patterns, then the bare `identity.X` patterns, by the
rendered attribute values of the identity, in the order of the source. -/
def substitute_condition (identity : Identity) (condition : String) : String :=
  let expr := condition
  let expr := pyReplace expr "not identity.valid" (pyStr (! identity.valid))
  let expr := pyReplace expr "not identity.fga_allowed" (pyStr (! identity.fga_allowed))
  let expr := pyReplace expr "not identity.is_honeypot" (pyStr (! identity.is_honeypot))
  let expr := pyReplace expr "identity.valid" (pyStr identity.valid)
  let expr := pyReplace expr "identity.fga_allowed" (pyStr identity.fga_allowed)
  let expr := pyReplace expr "identity.is_honeypot" (pyStr identity.is_honeypot)
  let expr := pyReplace expr "identity.agent_type"
    (match identity.agent_type with
     | some s => if s = "" then "None" else "\"" ++ s ++ "\""
     | none => "None")
  expr

/-- The Python expression evaluator `eval` is an external oracle: it may
return a truthiness verdict or raise. -/
def PyEval : Type := String → Except String Bool

/-- `evaluate_condition`: substitute the identity attributes into the
condition and evaluate; any exception is caught and yields `false`. -/
def evaluate_condition (ev : PyEval) (identity : Identity) (condition : String) : Bool :=
  match ev (substitute_condition identity condition) with
  | Except.ok b => b
  | Except.error _ => false

/-- `get_honeypot_type`: choose a honeypot destination from the
`trap_profile` claim, defaulting to `honeypot_db_admin`. -/
def get_honeypot_type (identity : Identity) : String :=
  let trap_profile := identity.raw_claims.trap_profile.getD ""
  if trap_profile = "db-admin" then "honeypot_db_admin"
  else if trap_profile = "privileged" then "honeypot_privileged"
  else "honeypot_db_admin"

/-- The destination returned for a matched rule: `"self"` is resolved through
`get_honeypot_type`. -/
def resolve_route (identity : Identity) (route_to : String) : String :=
  if route_to = "self" then get_honeypot_type identity else route_to

/-- The `for rule in rules_sorted` loop of `route_request`: the first rule
whose condition evaluates true yields its resolved destination. The
`log_routing_event` calls are diagnostic only and carry no return value. -/
def route_rules (ev : PyEval) (identity : Identity) : List Rule → Option String
  | [] => none
  | r :: rest =>
    if evaluate_condition ev identity (r.condition.getD "") then
      some (resolve_route identity (r.route_to.getD ""))
    else
      route_rules ev identity rest

/-- The ascending-priority order used by `sorted(rules, key=...)`. -/
def ruleLE (a b : Rule) : Prop := rulePriority a ≤ rulePriority b

instance : DecidableRel ruleLE := fun a b => by unfold ruleLE; infer_instance

instance : IsTotal Rule ruleLE := ⟨fun _ _ => Int.le_total _ _⟩

instance : IsTrans Rule ruleLE := ⟨fun _ _ _ h1 h2 => Int.le_trans h1 h2⟩

/-- `route_request`: stable-sort the rules by ascending priority (Python
`sorted`; `List.insertionSort` is likewise stable), take the first match, and
fall back to `config.get("default_route", "honeypot_db_admin")`. -/
def route_request (ev : PyEval) (config : RoutingConfig) (identity : Identity) : String :=
  let rules_sorted := List.insertionSort ruleLE config.rules
  match route_rules ev identity rules_sorted with
  | some dest => dest
  | none => config.default_route.getD "honeypot_db_admin"

/- ### Fingerprint recorder (`src/backend/tools/log_interaction.py`) -/

namespace LogInteraction

/-- The fixed embedding dimension of Titan v2 (`EMBEDDING_DIMENSION`). -/
def EMBEDDING_DIMENSION : Nat := 1024

/-- One JSONL fingerprint entry (`log_entry` of `log_interaction`). -/
structure FingerprintEntry where
  timestamp : String
  source_agent : String
  message : String
  threat_indicators : List String
  session_id : String
  deriving DecidableEq, Repr

/-- The metadata object upserted with a vector (`safe_metadata`). -/
structure SafeMetadata where
  source_agent : String
  threat_level : String
  timestamp : String
  actions : String
  deriving DecidableEq, Repr

/-- One vector upsert request (`put_vectors` argument). -/
structure VectorPut where
  key : String
  data : List ℚ
  metadata : SafeMetadata
  deriving DecidableEq, Repr

/-- Environment of the recorder: the Bedrock `invoke_model` call (its `ok`
value is `result.get("embedding", [])` of the decoded JSON), the S3 Vectors
`put_vectors` call, the local filesystem append (directory creation plus the
JSONL write), the wall clock and the fresh UUID hex. -/
structure LogEnv where
  invokeModel : String → Except String (List ℚ)
  putVectors : VectorPut → Except String Unit
  writeLocal : FingerprintEntry → Except String Unit
  timestamp : String
  uuid_hex12 : String

/-- `_generate_embedding`: call Bedrock; any exception or a wrong dimension
yields `None`. -/
def _generate_embedding (env : LogEnv) (text : String) : Option (List ℚ) :=
  match env.invokeModel text with
  | Except.error _ => none
  | Except.ok embedding =>
    if embedding.length ≠ EMBEDDING_DIMENSION then none else some embedding

/-- `_calculate_threat_level`: high-risk indicators dominate, then
medium-risk, then `LOW` for any other non-empty list, else `UNKNOWN`. -/
def _calculate_threat_level (indicators : List String) : String :=
  let high_risk := ["credential_request", "privilege_escalation", "data_exfiltration"]
  let medium_risk := ["reconnaissance", "probing", "suspicious_query"]
  let has_high := indicators.any (fun i => high_risk.contains i)
  let has_medium := indicators.any (fun i => medium_risk.contains i)
  if has_high then "HIGH"
  else if has_medium then "MEDIUM"
  else if indicators ≠ [] then "LOW"
  else "UNKNOWN"

/-- `json.dumps` of a list of plain strings (escaping of special characters
inside an indicator tag is not modelled). -/
def jsonDumpsList (l : List String) : String :=
  "[" ++ joinWith ", " (l.map (fun s => "\"" ++ s ++ "\"")) ++ "]"

/-- The fields of the `metadata` argument of `_store_to_s3_vectors` as built
by `log_interaction`. -/
structure RawMetadata where
  source_agent : String
  threat_indicators : List String
  timestamp : String
  deriving DecidableEq, Repr

/-- `_store_to_s3_vectors`: build the capped metadata and upsert; any
exception yields `False`. -/
def _store_to_s3_vectors (env : LogEnv) (key : String) (embedding : List ℚ)
    (metadata : RawMetadata) : Bool :=
  let safe_metadata : SafeMetadata :=
    { source_agent := pyTake metadata.source_agent 50
      threat_level := _calculate_threat_level metadata.threat_indicators
      timestamp := metadata.timestamp
      actions := pyTake (jsonDumpsList metadata.threat_indicators) 200 }
  match env.putVectors { key := key, data := embedding, metadata := safe_metadata } with
  | Except.ok _ => true
  | Except.error _ => false

/-- The observable outcome of one `log_interaction` call: the returned string
plus whether the local append and the vector upsert took effect (all logger
output is diagnostic only). -/
structure LogOutcome where
  ack : String
  threat_level : String
  local_logged : Bool
  vector_stored : Bool
  deriving DecidableEq, Repr

/-- `log_interaction`: build the entry, attempt the local JSONL append
(failure swallowed), attempt the embedding and the vector upsert (failure
swallowed), and always return the success message. -/
def log_interaction (env : LogEnv) (source_agent message : String)
    (threat_indicators : List String) (session_id : String) : LogOutcome :=
  let timestamp := env.timestamp
  let threat_level := _calculate_threat_level threat_indicators
  let log_entry : FingerprintEntry :=
    { timestamp := timestamp
      source_agent := source_agent
      message := message
      threat_indicators := threat_indicators
      session_id := session_id }
  let local_logged :=
    match env.writeLocal log_entry with
    | Except.ok _ => true
    | Except.error _ => false
  let vector_stored :=
    match _generate_embedding env message with
    | none => false
    | some embedding =>
      _store_to_s3_vectors env ("interaction-" ++ env.uuid_hex12) embedding
        { source_agent := source_agent
          threat_indicators := threat_indicators
          timestamp := timestamp }
  { ack := "Interaction logged successfully."
    threat_level := threat_level
    local_logged := local_logged
    vector_stored := vector_stored }

end LogInteraction

/- ### Similarity query service (`src/backend/tools/query_patterns.py`) -/

namespace QueryPatterns

/-- The fixed embedding dimension (`EMBEDDING_DIMENSION`). -/
def EMBEDDING_DIMENSION : Nat := 1024

/-- The fixed similarity cut-off (`SIMILARITY_THRESHOLD = 0.7`). -/
def SIMILARITY_THRESHOLD : ℚ := 7 / 10

/-- The metadata stored with a vector, as read back from the store; a `none`
field models an absent key. The `actions` value is the compact JSON string
written by the recorder. -/
structure VecMetadata where
  source_agent : Option String := none
  threat_level : Option String := none
  actions : Option String := none
  timestamp : Option String := none
  deriving DecidableEq, Repr

/-- One element of the `vectors` list of a `query_vectors` response. -/
structure StoreVector where
  distance : Option ℚ := none
  metadata : Option VecMetadata := none
  deriving DecidableEq, Repr

/-- One similarity match returned to the caller. `actions := none` models the
Python default `[]` used when the metadata key is absent. -/
structure SimilarityMatch where
  similarity : ℚ
  source_agent : String
  threat_level : String
  actions : Option String
  timestamp : String
  deriving DecidableEq, Repr

/-- Environment of the query service: the Bedrock `invoke_model` call and
the S3 Vectors `query_vectors` call (embedding and `topK` as arguments). -/
structure QueryEnv where
  invokeModel : String → Except String (List ℚ)
  queryVectors : List ℚ → Nat → Except String (List StoreVector)

/-- Round half to even, as Python `round` does at the integer scale. -/
def roundHalfEven (q : ℚ) : ℤ :=
  if q - ⌊q⌋ < 1 / 2 then ⌊q⌋
  else if 1 / 2 < q - ⌊q⌋ then ⌊q⌋ + 1
  else if Even ⌊q⌋ then ⌊q⌋ else ⌊q⌋ + 1

/-- Python `round(x, 3)`. -/
def pyRound3 (x : ℚ) : ℚ := (roundHalfEven (1000 * x) : ℚ) / 1000

/-- `_generate_embedding` of the query module: identical to the recorder
version; any exception or a wrong dimension yields `None`. -/
def _generate_embedding (env : QueryEnv) (text : String) : Option (List ℚ) :=
  match env.invokeModel text with
  | Except.error _ => none
  | Except.ok embedding =>
    if embedding.length ≠ EMBEDDING_DIMENSION then none else some embedding

/-- The per-vector conversion of `_query_s3_vectors`:
`similarity = round(1.0 - v.get("distance", 1.0), 3)` and the metadata
defaults of the source. -/
def toMatch (v : StoreVector) : SimilarityMatch :=
  let md := v.metadata.getD {}
  { similarity := pyRound3 (1 - v.distance.getD 1)
    source_agent := md.source_agent.getD "unknown"
    threat_level := md.threat_level.getD "UNKNOWN"
    actions := md.actions
    timestamp := md.timestamp.getD "" }

/-- `_query_s3_vectors`: the store call (which may raise; this helper has no
handler of its own) followed by the distance-to-similarity conversion. -/
def _query_s3_vectors (env : QueryEnv) (embedding : List ℚ) (top_k : Nat) :
    Except String (List SimilarityMatch) :=
  match env.queryVectors embedding top_k with
  | Except.error e => Except.error e
  | Except.ok vectors => Except.ok (vectors.map toMatch)

/-- `query_patterns`: embed the message (`[]` when that fails), query the
store with `top_k = 5`, keep the matches at or above the threshold; any
exception yields `[]`. -/
def query_patterns (env : QueryEnv) (current_message : String) : List SimilarityMatch :=
  match _generate_embedding env current_message with
  | none => []
  | some embedding =>
    match _query_s3_vectors env embedding 5 with
    | Except.error _ => []
    | Except.ok results =>
      results.filter (fun r => SIMILARITY_THRESHOLD ≤ r.similarity)

end QueryPatterns

/- ### Session correlator (`src/backend/core/agents.py`, `get_session_context`) -/

namespace AgentsCore

/-- One parsed JSONL fingerprint line as read back by the correlator; a
`none` field models an absent JSON key. -/
structure LogEntry where
  session_id : Option String := none
  source_agent : Option String := none
  message : Option String := none
  threat_indicators : Option (List String) := none
  deriving DecidableEq, Repr

/-- One raw line of `logs/fingerprints.jsonl`: `none` models a line that
`json.loads` rejects (the `JSONDecodeError` branch skips it). -/
def LogLine : Type := Option LogEntry

/-- The per-entry summary line of `get_session_context`: the agent, the
message truncated to 100 characters, and the comma-joined indicators. -/
def renderEntry (entry : LogEntry) : String :=
  "- To " ++ entry.source_agent.getD "unknown" ++ ": \"" ++
    pyTake (entry.message.getD "") 100 ++ "...\" [Indicators: " ++
    joinWith ", " (entry.threat_indicators.getD []) ++ "]"

/-- The header line of the rendered context. -/
def contextHeader : String := "[COORDINATION INTEL - Prior attacker actions this session:]"

/-- The parse-and-filter loop of `get_session_context`: keep, in file order,
the parsable entries whose `session_id` equals the requested one. -/
def matchingEntries (lines : List LogLine) (session_id : String) : List LogEntry :=
  (lines.filterMap id).filter (fun e => e.session_id = some session_id)

/-- `get_session_context`: empty string for an empty session id, a missing
log file (`log = none`) or no matching entry; otherwise the header followed
by the summaries of `matching[-limit:]`, joined by newlines. -/
def get_session_context (log : Option (List LogLine)) (session_id : String)
    (limit : Nat) : String :=
  if session_id = "" then ""
  else
    match log with
    | none => ""
    | some lines =>
      let matching := matchingEntries lines session_id
      if matching = [] then ""
      else
        let recent := pySliceLast matching limit
        let context_parts := contextHeader :: recent.map renderEntry
        joinWith "\n" context_parts

end AgentsCore

/- ### Claim theorems -/

/-- C7: the derived threat level is `HIGH` when any indicator is in the
high-risk set, else `MEDIUM` when any indicator is in the medium-risk set,
else `LOW` for a non-empty indicator list, else `UNKNOWN`. -/
theorem threat_level_classification (indicators : List String) :
    ((∃ i ∈ indicators,
        i ∈ ["credential_request", "privilege_escalation", "data_exfiltration"]) →
      LogInteraction._calculate_threat_level indicators = "HIGH")
    ∧ ((∀ i ∈ indicators,
        i ∉ ["credential_request", "privilege_escalation", "data_exfiltration"]) →
       (∃ i ∈ indicators, i ∈ ["reconnaissance", "probing", "suspicious_query"]) →
      LogInteraction._calculate_threat_level indicators = "MEDIUM")
    ∧ ((∀ i ∈ indicators,
        i ∉ ["credential_request", "privilege_escalation", "data_exfiltration"] ∧
        i ∉ ["reconnaissance", "probing", "suspicious_query"]) →
       indicators ≠ [] →
      LogInteraction._calculate_threat_level indicators = "LOW")
    ∧ (indicators = [] → LogInteraction._calculate_threat_level indicators = "UNKNOWN") := by
  unfold LogInteraction._calculate_threat_level
  refine ⟨?_, ?_, ?_, ?_⟩
  · intro h
    have hh : ∃ x ∈ indicators,
        x = "credential_request" ∨ x = "privilege_escalation" ∨ x = "data_exfiltration" := by
      obtain ⟨i, hi, hm⟩ := h
      exact ⟨i, hi, by simpa using hm⟩
    simp [hh]
  · intro hno h
    have h1 : ¬ ∃ x ∈ indicators,
        x = "credential_request" ∨ x = "privilege_escalation" ∨ x = "data_exfiltration" := by
      rintro ⟨i, hi, hm⟩
      exact hno i hi (by simpa using hm)
    have h2 : ∃ x ∈ indicators,
        x = "reconnaissance" ∨ x = "probing" ∨ x = "suspicious_query" := by
      obtain ⟨i, hi, hm⟩ := h
      exact ⟨i, hi, by simpa using hm⟩
    simp [h1, h2]
  · intro hno hne
    have h1 : ¬ ∃ x ∈ indicators,
        x = "credential_request" ∨ x = "privilege_escalation" ∨ x = "data_exfiltration" := by
      rintro ⟨i, hi, hm⟩
      exact (hno i hi).1 (by simpa using hm)
    have h2 : ¬ ∃ x ∈ indicators,
        x = "reconnaissance" ∨ x = "probing" ∨ x = "suspicious_query" := by
      rintro ⟨i, hi, hm⟩
      exact (hno i hi).2 (by simpa using hm)
    simp [h1, h2, hne]
  · intro h
    subst h
    simp

/-- Witness for C7: a reconnaissance-only indicator list classifies as
`MEDIUM`. -/
theorem threat_level_classification_witness :
    LogInteraction._calculate_threat_level ["reconnaissance"] = "MEDIUM" :=
  (threat_level_classification ["reconnaissance"]).2.1 (by decide) (by decide)

/-- C3: `check_fga` fails open (returns `true`) when unconfigured, when the
token acquisition yields nothing, or when the remote check raises, and
returns the remote `allowed` verdict only on a fully successful check. -/
theorem check_fga_fails_open (env : FgaEnv) (agent_id relation object_id : String) :
    (¬ (envTruthy env.store_id ∧ envTruthy env.client_id ∧ envTruthy env.client_secret) →
      check_fga env agent_id relation object_id = true)
    ∧ (env.get_fga_token (env.client_id.getD "") (env.client_secret.getD "") = none →
      check_fga env agent_id relation object_id = true)
    ∧ (∀ e, env.checkRequest agent_id relation object_id = Except.error e →
      check_fga env agent_id relation object_id = true)
    ∧ (∀ tok result,
        (envTruthy env.store_id ∧ envTruthy env.client_id ∧ envTruthy env.client_secret) →
        env.get_fga_token (env.client_id.getD "") (env.client_secret.getD "") = some tok →
        env.checkRequest agent_id relation object_id = Except.ok result →
      check_fga env agent_id relation object_id = result.allowed.getD false) := by
  unfold check_fga
  refine ⟨?_, ?_, ?_, ?_⟩
  · intro h
    simp [h]
  · intro h
    split
    · rfl
    · rw [h]
  · intro e he
    split
    · rfl
    · rw [he]
      cases henv : env.get_fga_token (env.client_id.getD "") (env.client_secret.getD "") <;> simp
  · intro tok result hcfg htok hreq
    rw [htok, hreq]
    simp [hcfg]

/-- Witness for C3: with no FGA store configured and every remote call
failing, the check fails open. -/
theorem check_fga_fails_open_witness :
    check_fga
      { store_id := none, client_id := none, client_secret := none,
        get_fga_token := fun _ _ => none,
        checkRequest := fun _ _ _ => Except.error "timeout" }
      "agent-001" "can_communicate" "swarm:swarm-alpha" = true :=
  (check_fga_fails_open
      { store_id := none, client_id := none, client_secret := none,
        get_fga_token := fun _ _ => none,
        checkRequest := fun _ _ _ => Except.error "timeout" }
      "agent-001" "can_communicate" "swarm:swarm-alpha").1 (by decide)

/-- C6: for every behaviour of the embedding provider, the vector store and
the local filesystem, the recorder returns its success acknowledgement, and
the query service returns the empty list when the embedding call raises or
the store query raises on every embedding. -/
theorem record_query_fault_tolerance (lenv : LogInteraction.LogEnv)
    (qenv : QueryPatterns.QueryEnv) (source_agent message : String)
    (threat_indicators : List String) (session_id current_message e1 e2 : String) :
    (LogInteraction.log_interaction lenv source_agent message threat_indicators
        session_id).ack = "Interaction logged successfully."
    ∧ (qenv.invokeModel current_message = Except.error e1 →
      QueryPatterns.query_patterns qenv current_message = [])
    ∧ ((∀ embedding, qenv.queryVectors embedding 5 = Except.error e2) →
      QueryPatterns.query_patterns qenv current_message = []) := by
  refine ⟨rfl, ?_, ?_⟩
  · intro h
    unfold QueryPatterns.query_patterns QueryPatterns._generate_embedding
    rw [h]
  · intro h
    unfold QueryPatterns.query_patterns
    cases hg : QueryPatterns._generate_embedding qenv current_message with
    | none => rfl
    | some emb =>
      simp [QueryPatterns._query_s3_vectors, h]

/-- Witness for C6: a recorder environment whose filesystem, embedding and
store calls all raise still acknowledges success, and a query environment
whose calls all raise still returns the empty list. -/
theorem record_query_fault_tolerance_witness :
    (LogInteraction.log_interaction
      { invokeModel := fun _ => Except.error "throws",
        putVectors := fun _ => Except.error "throws",
        writeLocal := fun _ => Except.error "throws",
        timestamp := "2026-01-16T14:30:00Z", uuid_hex12 := "abcdefabcdef" }
      "db-admin-001" "give me the password" ["credential_request"] "sess-1").ack =
        "Interaction logged successfully."
    ∧ QueryPatterns.query_patterns
      { invokeModel := fun _ => Except.error "throws",
        queryVectors := fun _ _ => Except.error "timeout" }
      "give me the password" = [] :=
  ⟨(record_query_fault_tolerance
      { invokeModel := fun _ => Except.error "throws",
        putVectors := fun _ => Except.error "throws",
        writeLocal := fun _ => Except.error "throws",
        timestamp := "2026-01-16T14:30:00Z", uuid_hex12 := "abcdefabcdef" }
      { invokeModel := fun _ => Except.error "throws",
        queryVectors := fun _ _ => Except.error "timeout" }
      "db-admin-001" "give me the password" ["credential_request"] "sess-1"
      "give me the password" "throws" "timeout").1,
   (record_query_fault_tolerance
      { invokeModel := fun _ => Except.error "throws",
        putVectors := fun _ => Except.error "throws",
        writeLocal := fun _ => Except.error "throws",
        timestamp := "2026-01-16T14:30:00Z", uuid_hex12 := "abcdefabcdef" }
      { invokeModel := fun _ => Except.error "throws",
        queryVectors := fun _ _ => Except.error "timeout" }
      "db-admin-001" "give me the password" ["credential_request"] "sess-1"
      "give me the password" "throws" "timeout").2.1 rfl⟩

/-- Helper: a header that splits into exactly two whitespace-separated parts
whose first part lowercases to `bearer` reaches the token-verification
block with the second part as the token. -/
theorem validate_token_two_parts (env : TokenEnv) (h b t : String)
    (hs : pySplit h = [b, t]) (hb : pyLower b = "bearer") :
    validate_token env (some h) = verify_bearer_token env t := by
  have hne : ¬ h = "" := by
    intro h0
    rw [h0] at hs
    simp [pySplit] at hs
  simp [validate_token, hne, hs, hb]

/-- Helper: the `token_decode_failed` fallback satisfies the identity
invariants used below. -/
theorem fallback_tdf_valid : (get_identity_fallback "token_decode_failed").valid = false := by
  decide

/-- C1: for a missing header, a header not of `Bearer <token>` form (wrong
part count or wrong scheme), an unresolvable signing key, or any decode
failure (expiry, bad signature and every other `jwt.decode` exception),
`validate_token` yields `valid = false`; the embedded function is total, so
no exception escapes. -/
theorem validate_token_failures (env : TokenEnv) :
    (validate_token env none).valid = false
    ∧ (∀ h : String,
        ((pySplit h).length ≠ 2 ∨ ((pySplit h).head?.map pyLower) ≠ some "bearer") →
        (validate_token env (some h)).valid = false)
    ∧ (∀ h b t, pySplit h = [b, t] → pyLower b = "bearer" →
        env.get_signing_key t = none →
        (validate_token env (some h)).valid = false)
    ∧ (∀ h b t k e, pySplit h = [b, t] → pyLower b = "bearer" →
        env.get_signing_key t = some k → env.jwtDecode t k = Except.error e →
        (validate_token env (some h)).valid = false) := by
  refine ⟨rfl, ?_, ?_, ?_⟩
  · intro h hcond
    by_cases h0 : h = ""
    · simp only [validate_token, h0, if_pos rfl]
      exact fallback_tdf_valid
    · show (if h = "" then get_identity_fallback "token_decode_failed"
        else if (pySplit h).length ≠ 2 ∨ ((pySplit h).head?.map pyLower) ≠ some "bearer" then
          get_identity_fallback "token_decode_failed"
        else verify_bearer_token env ((pySplit h).getD 1 "")).valid = false
      rw [if_neg h0, if_pos hcond]
      exact fallback_tdf_valid
  · intro h b t hs hb hkey
    rw [validate_token_two_parts env h b t hs hb]
    show (match env.get_signing_key t with
      | none => get_identity_fallback "jwks_fetch_failed"
      | some signing_key =>
        match env.jwtDecode t signing_key with
        | Except.ok decoded => extract_identity decoded
        | Except.error _ => get_identity_fallback "token_decode_failed").valid = false
    rw [hkey]
    rfl
  · intro h b t k e hs hb hkey hdec
    rw [validate_token_two_parts env h b t hs hb]
    show (match env.get_signing_key t with
      | none => get_identity_fallback "jwks_fetch_failed"
      | some signing_key =>
        match env.jwtDecode t signing_key with
        | Except.ok decoded => extract_identity decoded
        | Except.error _ => get_identity_fallback "token_decode_failed").valid = false
    rw [hkey]
    show (match env.jwtDecode t k with
      | Except.ok decoded => extract_identity decoded
      | Except.error _ => get_identity_fallback "token_decode_failed").valid = false
    rw [hdec]
    rfl

/-- Witness for C1: with a signing key available but an unverifiable
signature, the header `"Bearer x.y.z"` yields an invalid identity; a
non-bearer header does as well. -/
theorem validate_token_failures_witness :
    (validate_token
      { get_signing_key := fun _ => some { key_id := "k1" },
        jwtDecode := fun _ _ => Except.error JwtError.invalidToken }
      (some "Bearer x.y.z")).valid = false
    ∧ (validate_token
      { get_signing_key := fun _ => some { key_id := "k1" },
        jwtDecode := fun _ _ => Except.error JwtError.invalidToken }
      (some "Basic dXNlcg==")).valid = false :=
  ⟨(validate_token_failures
      { get_signing_key := fun _ => some { key_id := "k1" },
        jwtDecode := fun _ _ => Except.error JwtError.invalidToken }).2.2.2
      "Bearer x.y.z" "Bearer" "x.y.z" { key_id := "k1" } JwtError.invalidToken
      (by decide) (by decide) rfl rfl,
   (validate_token_failures
      { get_signing_key := fun _ => some { key_id := "k1" },
        jwtDecode := fun _ _ => Except.error JwtError.invalidToken }).2.1
      "Basic dXNlcg==" (by decide)⟩

/-- C10: the scheme check is case-insensitive on the first
whitespace-separated part (any header splitting as `[b, t]` with
`b.lower() = "bearer"` reaches verification of `t`), and any header not
splitting into exactly two parts yields `valid = false`. -/
theorem validate_token_header_parsing (env : TokenEnv) :
    (∀ h b t, pySplit h = [b, t] → pyLower b = "bearer" →
      validate_token env (some h) = verify_bearer_token env t)
    ∧ (∀ h, (pySplit h).length ≠ 2 → (validate_token env (some h)).valid = false) := by
  refine ⟨fun h b t hs hb => validate_token_two_parts env h b t hs hb, ?_⟩
  intro h hlen
  by_cases h0 : h = ""
  · simp only [validate_token, h0, if_pos rfl]
    exact fallback_tdf_valid
  · show (if h = "" then get_identity_fallback "token_decode_failed"
      else if (pySplit h).length ≠ 2 ∨ ((pySplit h).head?.map pyLower) ≠ some "bearer" then
        get_identity_fallback "token_decode_failed"
      else verify_bearer_token env ((pySplit h).getD 1 "")).valid = false
    rw [if_neg h0, if_pos (Or.inl hlen)]
    exact fallback_tdf_valid

/-- Witness for C10: the uppercase header `"BEARER abc"` reaches the
verification block, and a three-part header is rejected as invalid. -/
theorem validate_token_header_parsing_witness :
    validate_token
      { get_signing_key := fun _ => none,
        jwtDecode := fun _ _ => Except.error JwtError.invalidToken }
      (some "BEARER abc") =
      verify_bearer_token
        { get_signing_key := fun _ => none,
          jwtDecode := fun _ _ => Except.error JwtError.invalidToken } "abc"
    ∧ (validate_token
      { get_signing_key := fun _ => none,
        jwtDecode := fun _ _ => Except.error JwtError.invalidToken }
      (some "Bearer a b")).valid = false :=
  ⟨(validate_token_header_parsing
      { get_signing_key := fun _ => none,
        jwtDecode := fun _ _ => Except.error JwtError.invalidToken }).1
      "BEARER abc" "BEARER" "abc" (by decide) (by decide),
   (validate_token_header_parsing
      { get_signing_key := fun _ => none,
        jwtDecode := fun _ _ => Except.error JwtError.invalidToken }).2
      "Bearer a b" (by decide)⟩

/-- The data-model invariant of the spec: an invalid identity is never
authorized, and `agent_id` is non-null exactly for valid identities. -/
def IdentityInvariant (i : Identity) : Prop :=
  (i.valid = false → i.fga_allowed = false) ∧ (i.agent_id ≠ none ↔ i.valid = true)

/-- Helper: the two fallbacks used by the verification pipeline satisfy the
invariant. -/
theorem invariant_fallback_tdf : IdentityInvariant (get_identity_fallback "token_decode_failed") :=
  ⟨by decide, by decide⟩

/-- Helper: the JWKS-failure fallback satisfies the invariant. -/
theorem invariant_fallback_jwks : IdentityInvariant (get_identity_fallback "jwks_fetch_failed") :=
  ⟨by decide, by decide⟩

/-- Helper: the token-verification block always satisfies the invariant. -/
theorem invariant_verify_bearer (env : TokenEnv) (tok : String) :
    IdentityInvariant (verify_bearer_token env tok) := by
  unfold verify_bearer_token
  rcases hk : env.get_signing_key tok with _ | k
  · exact invariant_fallback_jwks
  · show IdentityInvariant (match env.jwtDecode tok k with
      | Except.ok decoded => extract_identity decoded
      | Except.error _ => get_identity_fallback "token_decode_failed")
    rcases hd : env.jwtDecode tok k with e | claims
    · exact invariant_fallback_tdf
    · show IdentityInvariant (extract_identity claims)
      constructor
      · intro hv
        simp [extract_identity] at hv
      · simp [extract_identity]

/-- Helper: every identity produced by `validate_token` satisfies the
invariant. -/
theorem invariant_validate_token (env : TokenEnv) (auth_header : Option String) :
    IdentityInvariant (validate_token env auth_header) := by
  cases auth_header with
  | none => exact invariant_fallback_tdf
  | some h =>
    show IdentityInvariant (if h = "" then get_identity_fallback "token_decode_failed"
      else if (pySplit h).length ≠ 2 ∨ ((pySplit h).head?.map pyLower) ≠ some "bearer" then
        get_identity_fallback "token_decode_failed"
      else verify_bearer_token env ((pySplit h).getD 1 ""))
    by_cases h0 : h = ""
    · rw [if_pos h0]
      exact invariant_fallback_tdf
    · rw [if_neg h0]
      split
      · exact invariant_fallback_tdf
      · exact invariant_verify_bearer env _

/-- C9: every identity produced by the verification pipeline
(`validate_token` and `get_full_identity`) satisfies
`valid = false → fga_allowed = false` and `agent_id ≠ none ↔ valid = true`. -/
theorem identity_pipeline_invariant (tenv : TokenEnv) (fenv : FgaEnv)
    (auth_header : Option String) (swarm_id : String) :
    IdentityInvariant (validate_token tenv auth_header)
    ∧ IdentityInvariant (get_full_identity tenv fenv auth_header swarm_id) := by
  refine ⟨invariant_validate_token tenv auth_header, ?_⟩
  show IdentityInvariant (if (validate_token tenv auth_header).valid = false then
      validate_token tenv auth_header
    else
      { validate_token tenv auth_header with
        fga_allowed := check_fga fenv ((validate_token tenv auth_header).agent_id.getD "")
          "can_communicate" ("swarm:" ++ swarm_id) })
  split
  · exact invariant_validate_token tenv auth_header
  · rename_i hv
    have hbase := invariant_validate_token tenv auth_header
    constructor
    · intro hvf
      exact absurd hvf hv
    · simpa using hbase.2

/-- Witness for C9: the invariant instantiated at a concrete failing
environment shows the fallback identity is unauthorized. -/
theorem identity_pipeline_invariant_witness :
    (validate_token
      { get_signing_key := fun _ => none,
        jwtDecode := fun _ _ => Except.error JwtError.invalidToken }
      none).fga_allowed = false := by
  have h := (identity_pipeline_invariant
      { get_signing_key := fun _ => none,
        jwtDecode := fun _ _ => Except.error JwtError.invalidToken }
      { store_id := none, client_id := none, client_secret := none,
        get_fga_token := fun _ _ => none,
        checkRequest := fun _ _ _ => Except.error "timeout" }
      none "swarm-alpha").1
  exact h.1 (by decide)

/-- Helper: `route_rules` finds no destination exactly when the condition of
every rule evaluates false. -/
theorem route_rules_none_iff (ev : PyEval) (identity : Identity) (l : List Rule) :
    route_rules ev identity l = none ↔
      ∀ r ∈ l, evaluate_condition ev identity (r.condition.getD "") = false := by
  induction l with
  | nil => simp [route_rules]
  | cons r rest ih =>
    cases heval : evaluate_condition ev identity (r.condition.getD "") with
    | true =>
      simp only [route_rules, heval, if_true]
      constructor
      · intro hsome
        cases hsome
      · intro hall
        rw [hall r (List.mem_cons_self r rest)] at heval
        cases heval
    | false =>
      simp only [route_rules, heval, Bool.false_eq_true, if_false, ih]
      constructor
      · intro hall r' hr'
        rcases List.mem_cons.mp hr' with h1 | h1
        · rw [h1]
          exact heval
        · exact hall r' h1
      · intro hall r' hr'
        exact hall r' (List.mem_cons_of_mem r hr')

/-- Helper: on a priority-sorted rule list, the destination found by
`route_rules` comes from a true-condition rule of minimal priority. -/
theorem route_rules_sorted_min (ev : PyEval) (identity : Identity) {l : List Rule}
    (hs : List.Sorted ruleLE l) {d : String}
    (h : route_rules ev identity l = some d) :
    ∃ r ∈ l, evaluate_condition ev identity (r.condition.getD "") = true ∧
      d = resolve_route identity (r.route_to.getD "") ∧
      ∀ r' ∈ l, evaluate_condition ev identity (r'.condition.getD "") = true →
        rulePriority r ≤ rulePriority r' := by
  induction l with
  | nil => simp [route_rules] at h
  | cons r rest ih =>
    rw [List.sorted_cons] at hs
    cases heval : evaluate_condition ev identity (r.condition.getD "") with
    | true =>
      have hd : d = resolve_route identity (r.route_to.getD "") := by
        simp only [route_rules, heval, if_true, Option.some.injEq] at h
        exact h.symm
      refine ⟨r, List.mem_cons_self r rest, heval, hd, ?_⟩
      intro r' hr' _
      rcases List.mem_cons.mp hr' with h1 | h1
      · rw [h1]
      · exact hs.1 r' h1
    | false =>
      have h' : route_rules ev identity rest = some d := by
        simpa only [route_rules, heval, Bool.false_eq_true, if_false] using h
      obtain ⟨r0, hr0, he0, hd0, hmin⟩ := ih hs.2 h'
      refine ⟨r0, List.mem_cons_of_mem r hr0, he0, hd0, ?_⟩
      intro r' hr' he'
      rcases List.mem_cons.mp hr' with h1 | h1
      · rw [h1, heval] at he'
        cases he'
      · exact hmin r' h1 he'

/-- C2: `route_request` returns the resolved destination of a true-condition
rule whose priority is minimal among all true-condition rules (the first
match in ascending priority order), and returns the configured default route
when no condition of any rule evaluates true. -/
theorem route_request_first_match (ev : PyEval) (config : RoutingConfig) (identity : Identity) :
    ((∀ r ∈ config.rules, evaluate_condition ev identity (r.condition.getD "") = false) →
      route_request ev config identity = config.default_route.getD "honeypot_db_admin")
    ∧ (∀ r₀ ∈ config.rules, evaluate_condition ev identity (r₀.condition.getD "") = true →
      ∃ r ∈ config.rules,
        evaluate_condition ev identity (r.condition.getD "") = true ∧
        route_request ev config identity = resolve_route identity (r.route_to.getD "") ∧
        ∀ r' ∈ config.rules, evaluate_condition ev identity (r'.condition.getD "") = true →
          rulePriority r ≤ rulePriority r') := by
  have hperm := List.perm_insertionSort ruleLE config.rules
  have hmem : ∀ x : Rule, x ∈ List.insertionSort ruleLE config.rules ↔ x ∈ config.rules :=
    fun x => hperm.mem_iff
  constructor
  · intro hall
    show (match route_rules ev identity (List.insertionSort ruleLE config.rules) with
      | some dest => dest
      | none => config.default_route.getD "honeypot_db_admin") =
        config.default_route.getD "honeypot_db_admin"
    rw [(route_rules_none_iff ev identity _).mpr (fun r hr => hall r ((hmem r).mp hr))]
  · intro r₀ hr₀ he₀
    have hgoal : ∀ d, route_rules ev identity (List.insertionSort ruleLE config.rules) = some d →
        route_request ev config identity = d := by
      intro d hd
      show (match route_rules ev identity (List.insertionSort ruleLE config.rules) with
        | some dest => dest
        | none => config.default_route.getD "honeypot_db_admin") = d
      rw [hd]
    cases hroute : route_rules ev identity (List.insertionSort ruleLE config.rules) with
    | none =>
      exfalso
      have hf := (route_rules_none_iff ev identity _).mp hroute r₀ ((hmem r₀).mpr hr₀)
      rw [hf] at he₀
      cases he₀
    | some d =>
      obtain ⟨r, hr, he, hd, hmin⟩ :=
        route_rules_sorted_min ev identity (List.sorted_insertionSort ruleLE config.rules) hroute
      refine ⟨r, (hmem r).mp hr, he, ?_, ?_⟩
      · rw [hgoal d hroute, hd]
      · intro r' hr' he'
        exact hmin r' ((hmem r').mpr hr') he'

/-- Witness for C2: with the single rule `not identity.valid` and a valid
identity, no rule matches and the configured default route `"real"` is
returned. -/
theorem route_request_first_match_witness :
    route_request
      (fun s => if s = "True" then Except.ok true
        else if s = "False" then Except.ok false else Except.error "NameError")
      { rules := [{ priority := some 1, condition := some "not identity.valid",
                    route_to := some "honeypot_db_admin", log_event := some "unauthorized_access" }],
        default_route := some "real" }
      { valid := true, agent_id := some "agent-001", agent_type := some "real",
        is_honeypot := false, fga_allowed := true, raw_claims := {} } = "real" :=
  (route_request_first_match
      (fun s => if s = "True" then Except.ok true
        else if s = "False" then Except.ok false else Except.error "NameError")
      { rules := [{ priority := some 1, condition := some "not identity.valid",
                    route_to := some "honeypot_db_admin", log_event := some "unauthorized_access" }],
        default_route := some "real" }
      { valid := true, agent_id := some "agent-001", agent_type := some "real",
        is_honeypot := false, fga_allowed := true, raw_claims := {} }).1 (by decide)

/-- C8: an evaluation error inside a condition is caught by
`evaluate_condition` and read as `false`, the rule loop then continues with
the next rule, and with an evaluator that always raises `route_request`
still returns (the default route) rather than propagating an exception. -/
theorem condition_error_never_propagates (ev : PyEval) (identity : Identity)
    (config : RoutingConfig) :
    (∀ condition e, ev (substitute_condition identity condition) = Except.error e →
      evaluate_condition ev identity condition = false)
    ∧ (∀ r rest e, ev (substitute_condition identity (r.condition.getD "")) = Except.error e →
      route_rules ev identity (r :: rest) = route_rules ev identity rest)
    ∧ ((∀ s, ∃ e, ev s = Except.error e) →
      route_request ev config identity = config.default_route.getD "honeypot_db_admin") := by
  have hfalse : ∀ condition e, ev (substitute_condition identity condition) = Except.error e →
      evaluate_condition ev identity condition = false := by
    intro condition e he
    unfold evaluate_condition
    rw [he]
  refine ⟨hfalse, ?_, ?_⟩
  · intro r rest e he
    simp only [route_rules, hfalse (r.condition.getD "") e he, Bool.false_eq_true, if_false]
  · intro hall
    have hnone : ∀ l : List Rule, route_rules ev identity l = none := by
      intro l
      induction l with
      | nil => rfl
      | cons r rest ih =>
        obtain ⟨e, he⟩ := hall (substitute_condition identity (r.condition.getD ""))
        simp only [route_rules, hfalse (r.condition.getD "") e he, Bool.false_eq_true,
          if_false, ih]
    show (match route_rules ev identity (List.insertionSort ruleLE config.rules) with
      | some dest => dest
      | none => config.default_route.getD "honeypot_db_admin") =
        config.default_route.getD "honeypot_db_admin"
    rw [hnone]

/-- Witness for C8: an evaluator that raises on every expression makes every
condition read as false and `route_request` return the hard-coded default. -/
theorem condition_error_never_propagates_witness :
    route_request (fun _ => Except.error "NameError")
      { rules := [{ priority := some 1, condition := some "not identity.valid",
                    route_to := some "honeypot_db_admin", log_event := none }],
        default_route := none }
      { valid := false } = "honeypot_db_admin" :=
  (condition_error_never_propagates (fun _ => Except.error "NameError")
      { valid := false }
      { rules := [{ priority := some 1, condition := some "not identity.valid",
                    route_to := some "honeypot_db_admin", log_event := none }],
        default_route := none }).2.2 (fun _ => ⟨"NameError", rfl⟩)

/-- Helper: round-half-to-even is monotone. -/
theorem roundHalfEven_mono {x y : ℚ} (h : x ≤ y) :
    QueryPatterns.roundHalfEven x ≤ QueryPatterns.roundHalfEven y := by
  unfold QueryPatterns.roundHalfEven
  have hf : ⌊x⌋ ≤ ⌊y⌋ := Int.floor_le_floor h
  rcases lt_or_eq_of_le hf with hlt | heq
  · have h1 : (if x - ⌊x⌋ < 1 / 2 then ⌊x⌋
        else if 1 / 2 < x - ⌊x⌋ then ⌊x⌋ + 1
        else if Even ⌊x⌋ then ⌊x⌋ else ⌊x⌋ + 1) ≤ ⌊x⌋ + 1 := by
      split_ifs <;> omega
    have h2 : ⌊y⌋ ≤ (if y - ⌊y⌋ < 1 / 2 then ⌊y⌋
        else if 1 / 2 < y - ⌊y⌋ then ⌊y⌋ + 1
        else if Even ⌊y⌋ then ⌊y⌋ else ⌊y⌋ + 1) := by
      split_ifs <;> omega
    refine le_trans h1 (le_trans ?_ h2)
    omega
  · rw [← heq]
    have hr : x - ⌊x⌋ ≤ y - ⌊x⌋ := by linarith
    split_ifs <;> first | omega | (exfalso; linarith)

/-- Helper: Python `round(x, 3)` is monotone. -/
theorem pyRound3_mono {x y : ℚ} (h : x ≤ y) :
    QueryPatterns.pyRound3 x ≤ QueryPatterns.pyRound3 y := by
  unfold QueryPatterns.pyRound3
  have hm : QueryPatterns.roundHalfEven (1000 * x) ≤ QueryPatterns.roundHalfEven (1000 * y) :=
    roundHalfEven_mono (by linarith)
  have hc : ((QueryPatterns.roundHalfEven (1000 * x) : ℚ)) ≤
      (QueryPatterns.roundHalfEven (1000 * y) : ℚ) := by exact_mod_cast hm
  linarith

/-- C4: on a successful embedding and store query, `query_patterns` returns
exactly the converted candidates whose similarity `round(1 - distance, 3)`
reaches the `0.7` threshold, and the result is sorted by descending
similarity whenever the store reports its neighbors in ascending distance
order. -/
theorem query_patterns_threshold_and_order (env : QueryPatterns.QueryEnv) (msg : String)
    (emb : List ℚ) (vs : List QueryPatterns.StoreVector)
    (hemb : env.invokeModel msg = Except.ok emb)
    (hlen : emb.length = QueryPatterns.EMBEDDING_DIMENSION)
    (hq : env.queryVectors emb 5 = Except.ok vs) :
    QueryPatterns.query_patterns env msg =
      (vs.map QueryPatterns.toMatch).filter
        (fun r => QueryPatterns.SIMILARITY_THRESHOLD ≤ r.similarity)
    ∧ (∀ m, m ∈ QueryPatterns.query_patterns env msg ↔
        (∃ v ∈ vs, QueryPatterns.toMatch v = m) ∧
          QueryPatterns.SIMILARITY_THRESHOLD ≤ m.similarity)
    ∧ (∀ v ∈ vs, (QueryPatterns.toMatch v).similarity =
        QueryPatterns.pyRound3 (1 - v.distance.getD 1))
    ∧ ((vs.Pairwise fun a b => a.distance.getD 1 ≤ b.distance.getD 1) →
        (QueryPatterns.query_patterns env msg).Pairwise
          fun a b => b.similarity ≤ a.similarity) := by
  have hqp : QueryPatterns.query_patterns env msg =
      (vs.map QueryPatterns.toMatch).filter
        (fun r => QueryPatterns.SIMILARITY_THRESHOLD ≤ r.similarity) := by
    unfold QueryPatterns.query_patterns QueryPatterns._generate_embedding
      QueryPatterns._query_s3_vectors
    rw [hemb]
    simp [hlen, hq]
  refine ⟨hqp, ?_, ?_, ?_⟩
  · intro m
    rw [hqp]
    simp [List.mem_filter, List.mem_map]
  · intro v _
    rfl
  · intro hsorted
    rw [hqp]
    refine List.Pairwise.filter _ ?_
    refine List.Pairwise.map QueryPatterns.toMatch ?_ hsorted
    intro a b hab
    exact pyRound3_mono (by linarith)

/-- Witness for C4 (Scenario C): with store distances `0.2` and `0.5`, only
the similarity-`0.8` entry survives the `0.7` threshold. -/
theorem query_patterns_threshold_and_order_witness :
    QueryPatterns.query_patterns
      { invokeModel := fun _ => Except.ok (List.replicate 1024 (0 : ℚ)),
        queryVectors := fun _ _ => Except.ok
          [{ distance := some (1 / 5),
             metadata := some
               { source_agent := some "db-admin-001", threat_level := some "HIGH",
                 actions := none, timestamp := some "2026-01-16T14:30:00Z" } },
           { distance := some (1 / 2),
             metadata := some
               { source_agent := some "scout-002", threat_level := some "LOW",
                 actions := none, timestamp := some "2026-01-16T15:00:00Z" } }] }
      "select * from users" =
      [{ similarity := 4 / 5, source_agent := "db-admin-001", threat_level := "HIGH",
         actions := none, timestamp := "2026-01-16T14:30:00Z" }] := by
  rw [(query_patterns_threshold_and_order
      { invokeModel := fun _ => Except.ok (List.replicate 1024 (0 : ℚ)),
        queryVectors := fun _ _ => Except.ok
          [{ distance := some (1 / 5),
             metadata := some
               { source_agent := some "db-admin-001", threat_level := some "HIGH",
                 actions := none, timestamp := some "2026-01-16T14:30:00Z" } },
           { distance := some (1 / 2),
             metadata := some
               { source_agent := some "scout-002", threat_level := some "LOW",
                 actions := none, timestamp := some "2026-01-16T15:00:00Z" } }] }
      "select * from users" (List.replicate 1024 (0 : ℚ)) _
      rfl (by rw [List.length_replicate]; rfl) rfl).1]
  norm_num [List.filter, QueryPatterns.toMatch, QueryPatterns.pyRound3,
    QueryPatterns.roundHalfEven, QueryPatterns.SIMILARITY_THRESHOLD]


/-- The older fingerprint of the C5 scenario (logged first). -/
def cxEntryOld : AgentsCore.LogEntry :=
  { session_id := some "sess-1", source_agent := some "db-admin-001",
    message := some "show tables", threat_indicators := some ["reconnaissance"] }

/-- The newer fingerprint of the C5 scenario (logged second). -/
def cxEntryNew : AgentsCore.LogEntry :=
  { session_id := some "sess-1", source_agent := some "privileged-proc-001",
    message := some "dump credentials", threat_indicators := some ["credential_request"] }

/-- The two-line fingerprint log of the C5 scenario, oldest first. -/
def cxLog : Option (List AgentsCore.LogLine) := some [some cxEntryOld, some cxEntryNew]

set_option maxRecDepth 20000 in
/-- C5 counterexample: with two matching fingerprints (the second logged
later), the rendered context lists the older entry first — the code keeps
chronological file order — so it differs from the most-recent-first summary
the claim requires. -/
theorem get_session_context_order_counterexample :
    AgentsCore.get_session_context cxLog "sess-1" 5 ≠
      joinWith "\n" [AgentsCore.contextHeader,
        AgentsCore.renderEntry cxEntryNew, AgentsCore.renderEntry cxEntryOld]
    ∧ AgentsCore.get_session_context cxLog "sess-1" 5 =
      joinWith "\n" [AgentsCore.contextHeader,
        AgentsCore.renderEntry cxEntryOld, AgentsCore.renderEntry cxEntryNew] := by
  exact ⟨by decide, by decide⟩

/-- C5 (amended): the context is empty for an empty session id, a missing
log or no matching entry; otherwise, for `limit ≥ 1`, it is the header
followed by the summaries of the most recent `min limit count` matching
entries kept in chronological (oldest-first) order. -/
theorem get_session_context_amended (log : Option (List AgentsCore.LogLine))
    (sid : String) (limit : Nat) :
    (AgentsCore.get_session_context log "" limit = "")
    ∧ (AgentsCore.get_session_context none sid limit = "")
    ∧ (∀ lines, log = some lines → AgentsCore.matchingEntries lines sid = [] →
        AgentsCore.get_session_context log sid limit = "")
    ∧ (∀ lines, log = some lines → sid ≠ "" → 1 ≤ limit →
        AgentsCore.matchingEntries lines sid ≠ [] →
        ∃ dropped recent,
          AgentsCore.matchingEntries lines sid = dropped ++ recent ∧
          recent.length = min limit (AgentsCore.matchingEntries lines sid).length ∧
          AgentsCore.get_session_context log sid limit =
            joinWith "\n" (AgentsCore.contextHeader ::
              recent.map AgentsCore.renderEntry)) := by
  refine ⟨rfl, ?_, ?_, ?_⟩
  · unfold AgentsCore.get_session_context
    split
    · rfl
    · rfl
  · intro lines hlog hmatch
    subst hlog
    show (if sid = "" then ""
      else if AgentsCore.matchingEntries lines sid = [] then ""
      else joinWith "\n" (AgentsCore.contextHeader ::
        (pySliceLast (AgentsCore.matchingEntries lines sid) limit).map
          AgentsCore.renderEntry)) = ""
    by_cases hsid : sid = ""
    · rw [if_pos hsid]
    · rw [if_neg hsid, if_pos hmatch]
  · intro lines hlog hsid hlim hne
    subst hlog
    refine ⟨(AgentsCore.matchingEntries lines sid).take
        ((AgentsCore.matchingEntries lines sid).length - limit),
      (AgentsCore.matchingEntries lines sid).drop
        ((AgentsCore.matchingEntries lines sid).length - limit),
      (List.take_append_drop _ _).symm, ?_, ?_⟩
    · rw [List.length_drop]
      omega
    · show (if sid = "" then ""
        else if AgentsCore.matchingEntries lines sid = [] then ""
        else joinWith "\n" (AgentsCore.contextHeader ::
          (pySliceLast (AgentsCore.matchingEntries lines sid) limit).map
            AgentsCore.renderEntry)) = _
      rw [if_neg hsid, if_neg hne]
      unfold pySliceLast
      rw [if_neg (by omega : ¬ limit = 0)]

set_option maxRecDepth 20000 in
/-- Witness for the amended C5: a single matching fingerprint with
`limit = 5` yields the header plus its own summary line. -/
theorem get_session_context_amended_witness :
    ∃ dropped recent,
      AgentsCore.matchingEntries [some cxEntryOld] "sess-1" = dropped ++ recent ∧
      recent.length = min 5 (AgentsCore.matchingEntries [some cxEntryOld] "sess-1").length ∧
      AgentsCore.get_session_context (some [some cxEntryOld]) "sess-1" 5 =
        joinWith "\n" (AgentsCore.contextHeader :: recent.map AgentsCore.renderEntry) :=
  (get_session_context_amended (some [some cxEntryOld]) "sess-1" 5).2.2.2
    [some cxEntryOld] rfl (by decide) (by decide) (by decide)
